import Mathlib

/-!
Verification of the WARP signature-matching plugin
(`src/plugins/warp/src/plugin.rs`, `src/plugins/warp/src/plugin/load.rs`).

The two source files contain the command plumbing: `LoadSignatureFile::action`
with its guard chain (default platform, file dialog, file read, payload parse)
and the platform matcher cache update, plus the debug commands.  The `Matcher`
internals (`extend_with_matcher`, `from_platform`, the tri-state lookup) and
`build_function` live in crate modules that are not part of the provided
sources; those are modelled from the specification, as marked on each
definition.
-/

/-- Function fingerprint (`FunctionGUID`): an opaque identity value. -/
abbrev FunctionGUID := Nat

/-- Identity of a type definition (`TypeGUID` / TypeIdentity). -/
abbrev TypeIdentity := Nat

/-- A candidate signature record (`warp::signature::function::Function`):
records are immutable and deduplicated by identity, so we model them as
opaque identity values. -/
abbrev SigRecord := Nat

/-- A type definition stored in the matcher's type table. -/
abbrev TypeDef := Nat

/-- A host platform object (only its identity-bearing payload matters here). -/
abbrev Platform := Nat

/-- `PlatformID`: stable key derived from a platform's intrinsic properties. -/
abbrev PlatformID := Nat

/-- Modelled from the spec: the in-memory `Matcher` (Signature Store) from
`crate::matcher`, absent from the provided sources.  `functions` maps a
fingerprint to its candidate set (absent fingerprint = empty set); `types`
maps a type identity to its stored definition. -/
structure Matcher where
  functions : FunctionGUID → Finset SigRecord
  types : TypeIdentity → Option TypeDef

theorem Matcher.ext_iff' (a b : Matcher) :
    a = b ↔ a.functions = b.functions ∧ a.types = b.types := by
  constructor
  · intro h; subst h; exact ⟨rfl, rfl⟩
  · intro ⟨hf, ht⟩
    cases a; cases b
    simp only [Matcher.mk.injEq]
    exact ⟨hf, ht⟩

/-- Modelled from the spec: `Matcher::extend_with_matcher` from
`crate::matcher`, absent from the provided sources.  For each fingerprint of
`other`: absent in `self` means insert the whole candidate set, present means
union the two sets deduplicated by record identity.  For each type identity:
absent means insert, present means keep the existing definition
(first-writer-wins). -/
def Matcher.extend_with_matcher (self other : Matcher) : Matcher where
  functions := fun g => self.functions g ∪ other.functions g
  types := fun t =>
    match self.types t with
    | some d => some d
    | none => other.types t

/-- Outcome of looking a fingerprint up in a signature store. -/
inductive Outcome where
  | NoMatch : Outcome
  | Unique : SigRecord → Outcome
  | Ambiguous : Finset SigRecord → Outcome
deriving DecidableEq

/-- Modelled from the spec: the tri-state lookup over a store
(`crate::matcher`, absent from the provided sources).  Zero candidates give
`NoMatch`, exactly one gives `Unique`, more than one gives `Ambiguous`. -/
def lookup (store : Matcher) (g : FunctionGUID) : Outcome :=
  if h : store.functions g = ∅ then Outcome.NoMatch
  else if (store.functions g).card = 1 then
    Outcome.Unique ((store.functions g).min' (Finset.nonempty_iff_ne_empty.mpr h))
  else Outcome.Ambiguous (store.functions g)

/-- Modelled from the spec: the automatic-propagation policy.  Only a
`Unique` outcome is eligible for automatic application; `Ambiguous` is
reported but never auto-applied. -/
def Outcome.auto_applied : Outcome → Option SigRecord
  | Outcome.Unique r => some r
  | _ => none

/-- Log events emitted by `LoadSignatureFile::action`, one constructor per
`log::error!` / `log::info!` site in `load.rs`. -/
inductive LogEvent where
  | errorNoDefaultPlatform : LogEvent
  | errorReadFailed : Nat → LogEvent
  | errorParseFailed : Nat → LogEvent
  | infoLoadingSignature : LogEvent
deriving DecidableEq

/-- The external collaborators used by `LoadSignatureFile::action`:
file reading (`std::fs::read`), payload parsing
(`warp::signature::Data::from_bytes`), store construction
(`Matcher::from_data`, `Matcher::from_platform`) and platform identity
derivation (`PlatformID::from`).  `from_platform` and `from_data` are
modelled from the spec as abstract constructors since `crate::matcher` is
absent from the provided sources. -/
structure Env where
  read_file : Nat → Option (List Nat)
  from_bytes : List Nat → Option Nat
  from_data : Nat → Matcher
  from_platform : Platform → Matcher
  platform_id : Platform → PlatformID

/-- Per-invocation inputs of `LoadSignatureFile::action`: the view's default
platform and the result of the file-selection dialog
(`get_open_filename_input`). -/
structure ActionInput where
  default_platform : Option Platform
  picked_file : Option Nat

/-- The process-wide caches visible to `load.rs`.  `plat_matcher_cache`
models the `PLAT_MATCHER_CACHE` once-cell (`none` = never initialized);
`session_caches` stands for the contents of the three per-session caches
(`FUNCTION_CACHE`, `GUID_CACHE`, `MATCHED_FUNCTION_CACHE`), which `action`
never touches. -/
structure Caches (σ : Type) where
  plat_matcher_cache : Option (PlatformID → Option Matcher)
  session_caches : σ

/-- Point update of the platform matcher map (`DashMap::insert`, and the
in-place mutation through `get_mut`). -/
def updateMap (m : PlatformID → Option Matcher) (k : PlatformID)
    (v : Matcher) : PlatformID → Option Matcher :=
  fun k' => if k' = k then some v else m k'

/-- `LoadSignatureFile::action` from `load.rs`, lines 7-47, as a state
transformer returning the updated caches and the emitted log events.  The
four guards mirror the `let ... else` chain; the final `match` mirrors the
`matcher_cache.get_mut` branch. -/
def LoadSignatureFile.action {σ : Type} (env : Env) (input : ActionInput)
    (st : Caches σ) : Caches σ × List LogEvent :=
  match input.default_platform with
  | none => (st, [LogEvent.errorNoDefaultPlatform])
  | some platform =>
    match input.picked_file with
    | none => (st, [])
    | some file =>
      match env.read_file file with
      | none => (st, [LogEvent.errorReadFailed file])
      | some bytes =>
        match env.from_bytes bytes with
        | none => (st, [LogEvent.errorParseFailed file])
        | some data =>
          let new_matcher := env.from_data data
          let platform_id := env.platform_id platform
          let matcher_cache := st.plat_matcher_cache.getD (fun _ => none)
          match matcher_cache platform_id with
          | some matcher =>
            ({ st with
                plat_matcher_cache :=
                  some (updateMap matcher_cache platform_id
                    (matcher.extend_with_matcher new_matcher)) },
              [LogEvent.infoLoadingSignature])
          | none =>
            ({ st with
                plat_matcher_cache :=
                  some (updateMap matcher_cache platform_id
                    ((env.from_platform platform).extend_with_matcher
                      new_matcher)) },
              [LogEvent.infoLoadingSignature])

/-- The run context of a fingerprint computation: which machine and process
perform it and how many times it has been called before.  A deterministic,
side-effect-free computation may depend on none of these. -/
structure RunCtx where
  machine : Nat
  process : Nat
  call_index : Nat

/-- Modelled from the spec: the fingerprint computation performed by
`build_function` (crate root, absent from the provided sources): a pure fold
over the caller-supplied address-normalized instruction encoding, producing a
fixed-width (128-bit) identity. -/
def build_function_guid (r : List Nat) : FunctionGUID :=
  r.foldl (fun h b => (h * 1099511628211 + b) % 2 ^ 128) 14695981039346656037

/-- `computeFingerprint` as exposed to the host: the computation receives a
run context (machine, process, call count) but its result is defined purely
from the normalized representation. -/
def computeFingerprint (_ctx : RunCtx) (r : List Nat) : FunctionGUID :=
  build_function_guid r

/-- Example store: fingerprint 5 has candidates 1 and 2; type 7 is defined
as 10. -/
def storeA : Matcher where
  functions := fun g => if g = 5 then {1, 2} else ∅
  types := fun t => if t = 7 then some 10 else none

/-- Example store: fingerprint 5 has candidates 2 and 3, fingerprint 6 has
candidate 9; type 7 is defined as 11, type 8 as 12. -/
def storeB : Matcher where
  functions := fun g => if g = 5 then {2, 3} else if g = 6 then {9} else ∅
  types := fun t => if t = 7 then some 11 else if t = 8 then some 12 else none

/-- Example store for lookup: fingerprint 1 has one candidate, fingerprint 2
has two. -/
def storeC : Matcher where
  functions := fun g => if g = 1 then {4} else if g = 2 then {4, 5} else ∅
  types := fun _ => none

/-- Example environment: file 0 reads to bytes `[1, 2]`, which parse to data
0, which builds `storeB`; every platform's default store is `storeA`. -/
def envW : Env where
  read_file := fun f => if f = 0 then some [1, 2] else none
  from_bytes := fun bs => if bs = [1, 2] then some 0 else none
  from_data := fun _ => storeB
  from_platform := fun _ => storeA
  platform_id := fun p => p

/-- Example environment whose payloads never parse. -/
def envParseFail : Env where
  read_file := fun f => if f = 0 then some [1, 2] else none
  from_bytes := fun _ => none
  from_data := fun _ => storeB
  from_platform := fun _ => storeA
  platform_id := fun p => p

/-- Example initial caches: uninitialized platform matcher cache, session
caches represented by the value 37. -/
def cachesEmpty : Caches Nat where
  plat_matcher_cache := none
  session_caches := 37

/-- C4: for stores A and B and a fingerprint g present in both, after
`extend_with_matcher` the entry for g is the deduplicated union of the two
pre-merge candidate sets, and no pre-merge candidate is dropped. -/
theorem extend_merge_union (A B : Matcher) (g : FunctionGUID)
    (_hA : (A.functions g).Nonempty) (_hB : (B.functions g).Nonempty) :
    (A.extend_with_matcher B).functions g = A.functions g ∪ B.functions g ∧
    ∀ r : SigRecord, (r ∈ A.functions g ∨ r ∈ B.functions g) →
      r ∈ (A.extend_with_matcher B).functions g := by
  refine ⟨rfl, ?_⟩
  intro r hr
  simpa [Matcher.extend_with_matcher, Finset.mem_union] using hr

/-- C4 witness: `storeA` and `storeB` both carry fingerprint 5; the merged
entry is the union of the two candidate sets. -/
theorem extend_merge_union_witness :
    (storeA.extend_with_matcher storeB).functions 5 =
      storeA.functions 5 ∪ storeB.functions 5 ∧
    (4 : SigRecord) ∉ (∅ : Finset SigRecord) := by
  have h := extend_merge_union storeA storeB 5 (by decide) (by decide)
  exact ⟨h.1, by decide⟩

/-- C5: for a TypeIdentity t defined in both A and B, the merge keeps A's
original definition (first-writer-wins); a TypeIdentity absent from A is
inserted from B. -/
theorem extend_types_first_writer_wins (A B : Matcher) (t : TypeIdentity) :
    (∀ d : TypeDef, A.types t = some d →
      (A.extend_with_matcher B).types t = some d) ∧
    (A.types t = none → (A.extend_with_matcher B).types t = B.types t) := by
  constructor
  · intro d hd
    simp [Matcher.extend_with_matcher, hd]
  · intro hnone
    simp [Matcher.extend_with_matcher, hnone]

/-- C5 witness: `storeA` and `storeB` define type 7 differently (10 vs. 11);
the merge keeps `storeA`'s definition, and type 8, absent from `storeA`, is
inserted from `storeB`. -/
theorem extend_types_first_writer_wins_witness :
    (storeA.extend_with_matcher storeB).types 7 = some 10 ∧
    (storeA.extend_with_matcher storeB).types 8 = storeB.types 8 := by
  have h7 := (extend_types_first_writer_wins storeA storeB 7).1 10 (by decide)
  have h8 := (extend_types_first_writer_wins storeA storeB 8).2 (by decide)
  exact ⟨h7, h8⟩

/-- C6: merging the same store twice equals merging it once. -/
theorem extend_idempotent (S O : Matcher) :
    (S.extend_with_matcher O).extend_with_matcher O = S.extend_with_matcher O := by
  rw [Matcher.ext_iff']
  constructor
  · funext g
    simp [Matcher.extend_with_matcher, Finset.union_assoc]
  · funext t
    cases hS : S.types t with
    | some d => simp [Matcher.extend_with_matcher, hS]
    | none =>
      cases hO : O.types t with
      | some d => simp [Matcher.extend_with_matcher, hS, hO]
      | none => simp [Matcher.extend_with_matcher, hS, hO]

/-- C8: the fingerprint computed from a fixed normalized representation is
the same in every run context — on every call, in every process and on every
machine — and, being a pure function of the representation, has no side
effects. -/
theorem computeFingerprint_deterministic (c1 c2 : RunCtx) (r : List Nat) :
    computeFingerprint c1 r = computeFingerprint c2 r := rfl

theorem lookup_noMatch_iff (store : Matcher) (g : FunctionGUID) :
    lookup store g = Outcome.NoMatch ↔ store.functions g = ∅ := by
  unfold lookup
  split_ifs with h h1 <;> simp [h]

theorem lookup_unique_iff (store : Matcher) (g : FunctionGUID) (r : SigRecord) :
    lookup store g = Outcome.Unique r ↔ store.functions g = {r} := by
  unfold lookup
  split_ifs with h h1
  · constructor
    · intro hc; cases hc
    · intro hc
      rw [h] at hc
      exact absurd hc.symm (Finset.singleton_ne_empty r)
  · obtain ⟨a, ha⟩ := Finset.card_eq_one.mp h1
    constructor
    · intro hc
      have hmin : (store.functions g).min' (Finset.nonempty_iff_ne_empty.mpr h) = r := by
        simpa using hc
      have hmem := Finset.min'_mem (store.functions g)
        (Finset.nonempty_iff_ne_empty.mpr h)
      rw [hmin] at hmem
      rw [ha] at hmem
      rw [ha, Finset.mem_singleton.mp hmem]
    · intro hc
      have hmem := Finset.min'_mem (store.functions g)
        (Finset.nonempty_iff_ne_empty.mpr h)
      have hr : (store.functions g).min' (Finset.nonempty_iff_ne_empty.mpr h) ∈
          ({r} : Finset SigRecord) :=
        (Finset.ext_iff.mp hc _).mp hmem
      simp [Finset.mem_singleton.mp hr]
  · constructor
    · intro hc; cases hc
    · intro hc
      exact absurd (by rw [hc]; simp : (store.functions g).card = 1) h1

theorem lookup_ambiguous_iff (store : Matcher) (g : FunctionGUID)
    (s : Finset SigRecord) :
    lookup store g = Outcome.Ambiguous s ↔
      store.functions g = s ∧ 1 < s.card := by
  unfold lookup
  split_ifs with h h1
  · constructor
    · intro hc; cases hc
    · rintro ⟨hs, hcard⟩
      rw [h] at hs
      rw [← hs] at hcard
      simp at hcard
  · constructor
    · intro hc; cases hc
    · rintro ⟨hs, hcard⟩
      rw [← hs] at hcard
      omega
  · have hpos : 0 < (store.functions g).card :=
      Finset.card_pos.mpr (Finset.nonempty_iff_ne_empty.mpr h)
    constructor
    · intro hc
      have hs : store.functions g = s := by
        simpa using hc
      refine ⟨hs, ?_⟩
      rw [← hs]
      omega
    · rintro ⟨hs, hcard⟩
      simp [hs]

/-- C7: `lookup` returns `NoMatch` exactly when the store has zero candidates
for g, `Unique r` exactly when r is the single candidate, `Ambiguous s`
exactly when s is the candidate set and it has more than one element; an
`Ambiguous` outcome is never auto-applied. -/
theorem lookup_tri_state (store : Matcher) (g : FunctionGUID) :
    (lookup store g = Outcome.NoMatch ↔ store.functions g = ∅) ∧
    (∀ r : SigRecord, lookup store g = Outcome.Unique r ↔
      store.functions g = {r}) ∧
    (∀ s : Finset SigRecord, lookup store g = Outcome.Ambiguous s ↔
      store.functions g = s ∧ 1 < s.card) ∧
    (∀ s : Finset SigRecord, lookup store g = Outcome.Ambiguous s →
      Outcome.auto_applied (lookup store g) = none) := by
  refine ⟨lookup_noMatch_iff store g, fun r => lookup_unique_iff store g r,
    fun s => lookup_ambiguous_iff store g s, ?_⟩
  intro s hs
  rw [hs]
  rfl

/-- C7 witness: in `storeC`, fingerprint 1 has the unique candidate 4,
fingerprint 2 is ambiguous between 4 and 5 (and not auto-applied), and
fingerprint 3 has no match. -/
theorem lookup_tri_state_witness :
    lookup storeC 1 = Outcome.Unique 4 ∧
    lookup storeC 2 = Outcome.Ambiguous {4, 5} ∧
    Outcome.auto_applied (lookup storeC 2) = none ∧
    lookup storeC 3 = Outcome.NoMatch := by
  have h1 := (lookup_tri_state storeC 1).2.1 4
  have h2 := (lookup_tri_state storeC 2).2.2.1 ({4, 5} : Finset SigRecord)
  have h2' := h2.mpr (by constructor <;> decide)
  have h2'' := (lookup_tri_state storeC 2).2.2.2 ({4, 5} : Finset SigRecord) h2'
  have h3 := (lookup_tri_state storeC 3).1
  exact ⟨h1.mpr (by decide), h2', h2'', h3.mpr (by decide)⟩

/-- C2: when the payload fails to parse (`from_bytes` returns `None`), the
load is aborted with only an error report: the platform matcher cache and
the per-session caches are exactly as before, and no partially merged store
is committed. -/
theorem action_parse_error_frame {σ : Type} (env : Env) (input : ActionInput)
    (st : Caches σ) (p : Platform) (f : Nat) (bs : List Nat)
    (hp : input.default_platform = some p)
    (hf : input.picked_file = some f)
    (hr : env.read_file f = some bs)
    (hparse : env.from_bytes bs = none) :
    LoadSignatureFile.action env input st =
      (st, [LogEvent.errorParseFailed f]) := by
  simp [LoadSignatureFile.action, hp, hf, hr, hparse]

/-- C2 witness: a concrete failed parse leaves the concrete caches
untouched. -/
theorem action_parse_error_frame_witness :
    LoadSignatureFile.action envParseFail ⟨some 1, some 0⟩ cachesEmpty =
      (cachesEmpty, [LogEvent.errorParseFailed 0]) :=
  action_parse_error_frame envParseFail ⟨some 1, some 0⟩ cachesEmpty 1 0 [1, 2]
    rfl rfl rfl rfl

/-- C3: when the view has no resolvable default platform, the operation
fails explicitly — it reports an error and returns with the caches
untouched, performing no lookup or merge. -/
theorem action_platform_unset {σ : Type} (env : Env) (input : ActionInput)
    (st : Caches σ) (hp : input.default_platform = none) :
    LoadSignatureFile.action env input st =
      (st, [LogEvent.errorNoDefaultPlatform]) := by
  simp [LoadSignatureFile.action, hp]

/-- C3 witness: a concrete view without a default platform yields exactly
the error report and an unchanged state. -/
theorem action_platform_unset_witness :
    LoadSignatureFile.action envW ⟨none, some 0⟩ cachesEmpty =
      (cachesEmpty, [LogEvent.errorNoDefaultPlatform]) :=
  action_platform_unset envW ⟨none, some 0⟩ cachesEmpty rfl

/-- C9: if the user cancels the file dialog, or the selected file cannot be
read, the action returns with the caches in exactly their prior state — in
particular the platform matcher cache is neither initialized nor
modified. -/
theorem action_cancel_or_read_error_frame {σ : Type} (env : Env)
    (input : ActionInput) (st : Caches σ) (p : Platform)
    (hp : input.default_platform = some p)
    (h : input.picked_file = none ∨
      ∃ f, input.picked_file = some f ∧ env.read_file f = none) :
    (LoadSignatureFile.action env input st).1 = st := by
  rcases h with hc | ⟨f, hf, hr⟩
  · simp [LoadSignatureFile.action, hp, hc]
  · simp [LoadSignatureFile.action, hp, hf, hr]

/-- C9 witness: a concrete cancelled dialog leaves the concrete caches
(with an uninitialized platform matcher cache) unchanged. -/
theorem action_cancel_or_read_error_frame_witness :
    (LoadSignatureFile.action envW ⟨some 1, none⟩ cachesEmpty).1 =
      cachesEmpty :=
  action_cancel_or_read_error_frame envW ⟨some 1, none⟩ cachesEmpty 1 rfl
    (Or.inl rfl)

/-- C1: loading a signature payload for a platform with no cached matcher
first builds the platform's default store, merges the parsed store into it
and caches the result, so the cached entry's functions map is a pointwise
superset of the default store's. -/
theorem action_load_unbuilt_platform {σ : Type} (env : Env)
    (input : ActionInput) (st : Caches σ) (p : Platform) (f : Nat)
    (bs : List Nat) (d : Nat)
    (hp : input.default_platform = some p)
    (hf : input.picked_file = some f)
    (hr : env.read_file f = some bs)
    (hparse : env.from_bytes bs = some d)
    (hcache : (st.plat_matcher_cache.getD (fun _ => none))
      (env.platform_id p) = none) :
    ((LoadSignatureFile.action env input st).1.plat_matcher_cache.getD
        (fun _ => none)) (env.platform_id p) =
      some ((env.from_platform p).extend_with_matcher (env.from_data d)) ∧
    ∀ g : FunctionGUID, (env.from_platform p).functions g ⊆
      ((env.from_platform p).extend_with_matcher (env.from_data d)).functions
        g := by
  constructor
  · simp [LoadSignatureFile.action, hp, hf, hr, hparse, hcache, updateMap]
  · intro g
    simp only [Matcher.extend_with_matcher]
    exact Finset.subset_union_left

/-- C1 witness: loading into an uninitialized cache with default store
`storeA` and parsed store `storeB` caches their merge, a superset of
`storeA`. -/
theorem action_load_unbuilt_platform_witness :
    ((LoadSignatureFile.action envW ⟨some 1, some 0⟩
          cachesEmpty).1.plat_matcher_cache.getD (fun _ => none))
        (envW.platform_id 1) =
      some ((envW.from_platform 1).extend_with_matcher (envW.from_data 0)) ∧
    ∀ g : FunctionGUID, (envW.from_platform 1).functions g ⊆
      ((envW.from_platform 1).extend_with_matcher (envW.from_data 0)).functions
        g :=
  action_load_unbuilt_platform envW ⟨some 1, some 0⟩ cachesEmpty 1 0 [1, 2] 0
    rfl rfl rfl rfl rfl

/-- C10: a successful load touches at most the platform matcher cache entry
of the view's default platform: every other platform identity's entry is
unchanged, and the per-session caches are unchanged. -/
theorem action_frame_other_platforms {σ : Type} (env : Env)
    (input : ActionInput) (st : Caches σ) (p : Platform) (f : Nat)
    (bs : List Nat) (d : Nat)
    (hp : input.default_platform = some p)
    (hf : input.picked_file = some f)
    (hr : env.read_file f = some bs)
    (hparse : env.from_bytes bs = some d) :
    (∀ pid : PlatformID, pid ≠ env.platform_id p →
      ((LoadSignatureFile.action env input st).1.plat_matcher_cache.getD
          (fun _ => none)) pid =
        (st.plat_matcher_cache.getD (fun _ => none)) pid) ∧
    (LoadSignatureFile.action env input st).1.session_caches =
      st.session_caches := by
  cases hcase : (st.plat_matcher_cache.getD (fun _ => none))
      (env.platform_id p) with
  | none =>
    constructor
    · intro pid hne
      simp [LoadSignatureFile.action, hp, hf, hr, hparse, hcase, updateMap,
        hne]
    · simp [LoadSignatureFile.action, hp, hf, hr, hparse, hcase]
  | some m =>
    constructor
    · intro pid hne
      simp [LoadSignatureFile.action, hp, hf, hr, hparse, hcase, updateMap,
        hne]
    · simp [LoadSignatureFile.action, hp, hf, hr, hparse, hcase]

/-- C10 witness: after a concrete successful load for platform 1, the entry
for platform 2 and the session caches are unchanged. -/
theorem action_frame_other_platforms_witness :
    ((LoadSignatureFile.action envW ⟨some 1, some 0⟩
          cachesEmpty).1.plat_matcher_cache.getD (fun _ => none)) 2 =
      (cachesEmpty.plat_matcher_cache.getD (fun _ => none)) 2 ∧
    (LoadSignatureFile.action envW ⟨some 1, some 0⟩
        cachesEmpty).1.session_caches = cachesEmpty.session_caches := by
  have h := action_frame_other_platforms envW ⟨some 1, some 0⟩ cachesEmpty 1 0
    [1, 2] 0 rfl rfl rfl rfl
  exact ⟨h.1 2 (by decide), h.2⟩
